import Mathlib

/-!
# Verification of the devopsify judgment pipeline

Shallow embedding of the core analysis services:
  src/server/services/appUnderstanding.ts  (detectStack, analyzePatterns,
    calculateLaunchConfidence, detectRisks, recommendPlatform,
    recommendNextStep, generateLaunchVerdict)
  src/server/services/alertOrchestrator.ts (evaluateAlerts)

Modelling conventions:
* TypeScript string-literal unions become inductive types.
* Optional fields become Option; arrays become List.
* JavaScript objects used as string-keyed records (package.json
  dependency maps, the in-memory file map) become association lists in
  insertion order; object spread merge keeps the first record key order
  and appends fresh keys of the second record.
* JavaScript string truthiness (empty string is falsy) is modelled
  explicitly where the source branches on it.
* String lowercasing is modelled for the ASCII range, which covers every
  pattern literal the source matches against.
* The regular expressions used by the source only combine literal
  characters with the quantified classes \s+, \s* and \w+, always in a
  position where the following token is from a disjoint character class,
  so greedy maximal-munch matching without backtracking is exact.
-/

/-- ASCII lowercase of one character, as the source relies on
`toLowerCase` only for ASCII pattern literals. -/
def lowerChar (c : Char) : Char :=
  if 'A' ≤ c ∧ c ≤ 'Z' then Char.ofNat (c.toNat + 32) else c

/-- ASCII lowercase of a string (model of `String.prototype.toLowerCase`). -/
def strLower (s : String) : String := ⟨s.data.map lowerChar⟩

/-- Is the first list a prefix of the second (Boolean)? -/
def isPrefixCh : List Char → List Char → Bool
  | [], _ => true
  | _ :: _, [] => false
  | a :: as, b :: bs => a == b && isPrefixCh as bs

/-- Does the haystack contain the needle as a contiguous substring?
Model of `String.prototype.includes`. -/
def containsSub : List Char → List Char → Bool
  | [], pat => isPrefixCh pat []
  | c :: rest, pat => isPrefixCh pat (c :: rest) || containsSub rest pat

/-- `String.prototype.includes` on strings. -/
def strIncludes (s pat : String) : Bool := containsSub s.data pat.data

/-- JavaScript truthiness of an optional string: `undefined` and the
empty string are falsy. -/
def jsTruthy : Option String → Bool
  | none => false
  | some s => s ≠ ""

/-- Lookup in a string-keyed record modelled as an association list. -/
def recLookup (r : List (String × String)) (key : String) : Option String :=
  (r.find? (fun p => p.1 == key)).map Prod.snd

/-- Object spread merge `\x7b...a, ...b\x7d`: keys of `a` in order (values
overridden by `b` on collision), then fresh keys of `b` in order. -/
def mergeRecords (a b : List (String × String)) : List (String × String) :=
  a.map (fun p => match recLookup b p.1 with
    | some v => (p.1, v)
    | none => p) ++
  b.filter (fun p => (recLookup a p.1).isNone)

/-- Truthiness of `deps[pkg]` for a dependency record. -/
def hasDep (deps : List (String × String)) (pkg : String) : Bool :=
  jsTruthy (recLookup deps pkg)

/-- First-occurrence deduplication, model of `[...new Set(xs)]`. -/
def dedupFirst (xs : List String) : List String :=
  xs.foldl (fun acc x => if acc.contains x then acc else acc ++ [x]) []

-- ## Data model (src/shared/types.ts)

/-- `estimated_concurrency_risk` values. -/
inductive ConcRisk
  | low
  | medium
  | high
deriving DecidableEq, Repr

/-- `RiskScenario.severity` values. -/
inductive Severity
  | low
  | medium
  | high
deriving DecidableEq, Repr

/-- `LaunchVerdict.status` values. -/
inductive VerdictStatus
  | safe
  | watch
  | fix
deriving DecidableEq, Repr

/-- The stage tiers used by `recommendNextStep`. -/
inductive Stage
  | mvp
  | watch
  | growth
  | production
deriving DecidableEq, Repr

/-- `NextBestStepRecommendation.mode` values. -/
inductive NextMode
  | do_nothing
  | watch_one_thing
  | small_upgrade
deriving DecidableEq, Repr

/-- `Alert.category` values. -/
inductive AlertCategory
  | usage_growth
  | cost_risk
  | architecture_drift
  | platform_suitability
  | stability_regression
deriving DecidableEq, Repr

/-- `Alert.severity` values. -/
inductive AlertSeverity
  | informational
  | heads_up
  | action_soon
deriving DecidableEq, Repr

/-- `StackProfile` (src/shared/types.ts): all fields optional in the
TypeScript interface; `detectStack` always initialises the two lists, so
they are modelled as lists, absent meaning empty. -/
structure StackProfile where
  runtime : Option String := none
  framework : Option String := none
  database : Option String := none
  databases : List String := []
  external_apis : List String := []
  has_background_jobs : Option Bool := none
  has_file_uploads : Option Bool := none
  deployment_platform : Option String := none
deriving DecidableEq, Repr

/-- `BehaviorProfile` (src/shared/types.ts). -/
structure BehaviorProfile where
  is_stateful : Bool
  write_heavy : Bool
  has_background_jobs : Bool
  has_file_uploads : Bool
  estimated_concurrency_risk : ConcRisk
  external_dependency_count : Nat
deriving DecidableEq, Repr

/-- `RiskScenario` (src/shared/types.ts). -/
structure RiskScenario where
  id : String
  title : String
  plain_explanation : String
  trigger_condition : String
  user_symptom : String
  severity : Severity
  order : Nat
deriving DecidableEq, Repr

/-- `PlatformRecommendation` (src/shared/types.ts). -/
structure PlatformRecommendation where
  platform_id : String
  platform_name : String
  recommended_badge : String
  why_bullets : List String
  when_it_changes : String
  confidence_note : String
deriving DecidableEq, Repr

/-- `NextBestStepRecommendation` (src/shared/types.ts). -/
structure NextBestStepRecommendation where
  mode : NextMode
  headline : String
  explanation : String
  cta_text : String
  upgrade_required : Bool
deriving DecidableEq, Repr

/-- `LaunchVerdict` (src/shared/types.ts). -/
structure LaunchVerdict where
  analysis_id : String
  status : VerdictStatus
  confidence_score : Nat
  one_line_summary : String
  risks : List RiskScenario
  platform_recommendation : PlatformRecommendation
  next_best_step : NextBestStepRecommendation
deriving DecidableEq, Repr

/-- The fields of `AppAnalysis` (src/shared/types.ts) that
`generateLaunchVerdict` reads: `id`, `stack_detection`,
`behavior_profile`. -/
structure AppAnalysis where
  id : String
  stack_detection : StackProfile
  behavior_profile : BehaviorProfile
deriving DecidableEq, Repr

/-- The parts of a parsed `package.json` that the pipeline reads. -/
structure PackageJson where
  dependencies : List (String × String) := []
  devDependencies : List (String × String) := []
deriving DecidableEq, Repr

/-- `AppContent` (src/server/services/appUnderstanding.ts): the file map
in insertion order, plus the optional manifest and requirements text. -/
structure AppContent where
  files : List (String × String) := []
  packageJson : Option PackageJson := none
  requirements : Option String := none
deriving DecidableEq, Repr

/-- `appContent.files.has(name)` on the modelled file map. -/
def hasFile (a : AppContent) (name : String) : Bool :=
  a.files.any (fun p => p.1 == name)

-- ## Regular-expression fragment machinery

/-- The regex tokens the source patterns use: literal characters and the
greedy classes \s+, \s* and \w+. -/
inductive RTok
  | lit (c : Char)
  | ws1
  | ws0
  | word1
deriving DecidableEq, Repr

/-- JavaScript \s membership (ASCII part). -/
def isWsChar (c : Char) : Bool :=
  c == ' ' || c == '\t' || c == '\n' || c == '\r' ||
  c == '\x0b' || c == '\x0c'

/-- JavaScript \w membership: [A-Za-z0-9_]. -/
def isWordChar (c : Char) : Bool :=
  ('a' ≤ c && c ≤ 'z') || ('A' ≤ c && c ≤ 'Z') ||
  ('0' ≤ c && c ≤ '9') || c == '_'

/-- Greedy match of a token list at the start of the input; returns the
remaining input on success.  Exact for the source patterns because each
quantified class there is followed by a disjoint class. -/
def matchToks : List RTok → List Char → Option (List Char)
  | [], s => some s
  | RTok.lit _ :: _, [] => none
  | RTok.lit c :: ts, x :: xs => if x == c then matchToks ts xs else none
  | RTok.ws1 :: _, [] => none
  | RTok.ws1 :: ts, x :: xs =>
    if isWsChar x then matchToks ts (xs.dropWhile isWsChar) else none
  | RTok.ws0 :: ts, s => matchToks ts (s.dropWhile isWsChar)
  | RTok.word1 :: _, [] => none
  | RTok.word1 :: ts, x :: xs =>
    if isWordChar x then matchToks ts (xs.dropWhile isWordChar) else none

/-- Does the pattern match anywhere in the input?  Model of
`RegExp.prototype.test`. -/
def hasMatch (pat : List RTok) : List Char → Bool
  | [] => (matchToks pat []).isSome
  | c :: rest => (matchToks pat (c :: rest)).isSome || hasMatch pat rest

/-- Scan for a global regex: walk the input one position at a time,
skipping the `skip` positions still covered by the previous match.  On a
match consuming k characters, count it and skip the next k - 1
positions, so the next attempt starts at the match end — exactly the
`lastIndex` behaviour of a JavaScript global regex (a zero-length match
advances by one position; truncated subtraction gives that for free). -/
def countScan (pat : List RTok) : List Char → Nat → Nat
  | [], _ => 0
  | c :: rest, skip =>
    if skip > 0 then countScan pat rest (skip - 1)
    else
      match matchToks pat (c :: rest) with
      | some rem => 1 + countScan pat rest (rest.length - rem.length)
      | none => countScan pat rest 0

/-- Number of matches found by a global regex scan.  Model of
`str.match(re).length` for a global regex, with 0 for `null`. -/
def countMatches (pat : List RTok) (s : List Char) : Nat :=
  countScan pat s 0

/-- Literal pattern from a string. -/
def lits (s : String) : List RTok := s.data.map RTok.lit

/-- Case-insensitive test of a pattern given in lowercase. -/
def testCI (pat : List RTok) (content : String) : Bool :=
  hasMatch pat (strLower content).data

/-- Case-sensitive test. -/
def testCS (pat : List RTok) (content : String) : Bool :=
  hasMatch pat content.data

/-- Case-insensitive global count of a pattern given in lowercase. -/
def countCI (pat : List RTok) (content : String) : Nat :=
  countMatches pat (strLower content).data

-- ## detectStack (src/server/services/appUnderstanding.ts)

/-- The `frameworks` table, in source order; first match wins. -/
def frameworksTable : List (String × String) :=
  [("express", "Express"), ("fastify", "Fastify"), ("next", "Next.js"),
   ("nuxt", "Nuxt"), ("koa", "Koa"), ("hapi", "@hapi/hapi"),
   ("@nestjs/core", "NestJS")]

/-- The `dbMapping` table, in source order. -/
def dbMapping : List (String × String) :=
  [("pg", "PostgreSQL"), ("mongoose", "MongoDB"), ("mongodb", "MongoDB"),
   ("sqlite3", "SQLite"), ("better-sqlite3", "SQLite"),
   ("mysql2", "MySQL"), ("mysql", "MySQL"),
   ("@prisma/client", "Prisma"), ("prisma", "Prisma")]

/-- The `apiPatterns` table, in source order. -/
def apiPatterns : List (String × String) :=
  [("stripe", "Stripe"), ("twilio", "Twilio"),
   ("@sendgrid/mail", "SendGrid"), ("sendgrid", "SendGrid"),
   ("aws-sdk", "AWS"), ("@aws-sdk", "AWS"),
   ("@google-cloud", "Google Cloud"), ("firebase", "Firebase"),
   ("firebase-admin", "Firebase")]

/-- The Node.js branch of `detectStack` (runs when `packageJson` is
present). -/
def detectStackNode (a : AppContent) (pj : PackageJson) (s0 : StackProfile) :
    StackProfile :=
  let deps := mergeRecords pj.dependencies pj.devDependencies
  let s1 := { s0 with runtime := some "Node.js" }
  let fw := match frameworksTable.find? (fun p => hasDep deps p.1) with
    | some p => some p.2
    | none => s1.framework
  let s2 := { s1 with framework := fw }
  let dbs := dbMapping.foldl
    (fun acc p =>
      if hasDep deps p.1 && !(acc.contains p.2) then acc ++ [p.2] else acc)
    s2.databases
  let s3 := { s2 with databases := dbs }
  let s4 := { s3 with database :=
    if dbs.length > 0 then dbs.head? else s3.database }
  let apis := apiPatterns.foldl
    (fun acc p =>
      if deps.any (fun d => strIncludes d.1 p.1) then acc ++ [p.2] else acc)
    s4.external_apis
  let s5 := { s4 with external_apis := apis }
  let s6 := { s5 with deployment_platform :=
    if (hasFile a "vercel.json") then some "Vercel"
    else if (hasFile a "replit.nix" || hasFile a ".replit") then some "Replit"
    else if (hasFile a "fly.toml") then some "Fly.io"
    else if (hasFile a "railway.json") then some "Railway"
    else s5.deployment_platform }
  let bgJobs := hasDep deps "bull" || hasDep deps "agenda" ||
    hasDep deps "node-cron"
  let s7 := { s6 with has_background_jobs := some bgJobs }
  let uploads := hasDep deps "multer" || hasDep deps "formidable" ||
    hasDep deps "busboy"
  { s7 with has_file_uploads := some uploads }

/-- The Python branch of `detectStack` (runs when `requirements` is
truthy). -/
def detectStackPython (req : String) (s0 : StackProfile) : StackProfile :=
  let reqLower := strLower req
  let s1 := { s0 with runtime := some "Python" }
  let s2 := { s1 with framework :=
    if (strIncludes reqLower "django") then some "Django"
    else if (strIncludes reqLower "flask") then some "Flask"
    else if (strIncludes reqLower "fastapi") then some "FastAPI"
    else s1.framework }
  let dbs0 := s2.databases
  let dbs1 := if strIncludes reqLower "psycopg" then dbs0 ++ ["PostgreSQL"]
    else dbs0
  let dbs2 := if strIncludes reqLower "pymongo" then dbs1 ++ ["MongoDB"]
    else dbs1
  let dbs3 := if strIncludes reqLower "mysql" then dbs2 ++ ["MySQL"] else dbs2
  let s3 := { s2 with databases := dbs3 }
  { s3 with database :=
    if dbs3.length > 0 then dbs3.head? else s3.database }

/-- `detectStack` (the implemented version in
src/server/services/appUnderstanding.ts): Node.js detection, then Python
detection, then deduplication of `external_apis`. -/
def detectStack (a : AppContent) : StackProfile :=
  let s0 : StackProfile :=
    { external_apis := [], databases := [] }
  let s1 := match a.packageJson with
    | some pj => detectStackNode a pj s0
    | none => s0
  let s2 := if jsTruthy a.requirements
    then detectStackPython (a.requirements.getD "") s1
    else s1
  { s2 with external_apis := dedupFirst s2.external_apis }

-- ## analyzePatterns (src/server/services/appUnderstanding.ts)

/-- `Array.from(appContent.files.values()).join("\n")`. -/
def joinedContent (a : AppContent) : String :=
  String.intercalate "\n" (a.files.map Prod.snd)

/-- The `statePatterns` array, in source order; the flag records whether
the regex carries the `i` flag (the `new Map(` and `new Set(` patterns
are case-sensitive).  Case-insensitive patterns are given in lowercase. -/
def statePatterns : List (List RTok × Bool) :=
  [(lits "global" ++ [RTok.ws1, RTok.word1, RTok.ws0] ++ lits "=", true),
   (lits "session[", true),
   (lits "sessionstorage", true),
   (lits "localstorage", true),
   (lits ".cache", true),
   (lits "memorystore", true),
   (lits "new" ++ [RTok.ws1] ++ lits "Map(", false),
   (lits "new" ++ [RTok.ws1] ++ lits "Set(", false)]

/-- `pattern.test(codeContent)` for one state pattern. -/
def testPattern (content : String) (p : List RTok × Bool) : Bool :=
  if p.2 then testCI p.1 content else testCS p.1 content

/-- The `writePatterns` array (all `gi`), in source order, lowercase. -/
def writePatterns : List (List RTok) :=
  [lits "insert" ++ [RTok.ws1] ++ lits "into",
   lits "update" ++ [RTok.ws1, RTok.word1, RTok.ws1] ++ lits "set",
   lits "delete" ++ [RTok.ws1] ++ lits "from",
   lits ".save(",
   lits ".create(",
   lits ".update(",
   lits ".delete(",
   lits ".write(",
   lits ".writefile"]

/-- The `readPatterns` array (all `gi`), in source order, lowercase. -/
def readPatterns : List (List RTok) :=
  [lits "select" ++ [RTok.ws1],
   lits ".find(",
   lits ".findone(",
   lits ".get(",
   lits ".read(",
   lits ".readfile"]

/-- The `bgJobPatterns` array (all `i`), in source order, lowercase. -/
def bgJobPatterns : List (List RTok) :=
  [lits "settimeout",
   lits "setinterval",
   lits "bull",
   lits "agenda",
   lits "node-cron",
   lits "cron",
   lits "celery",
   lits ".delay(",
   lits ".apply_async"]

/-- The `uploadPatterns` array (all `i`), in source order, lowercase. -/
def uploadPatterns : List (List RTok) :=
  [lits "multer",
   lits "formidable",
   lits "busboy",
   lits "werkzeug",
   lits "upload(",
   lits "multipart/form-data"]

/-- The `pool` indicator used for the concurrency-risk estimate:
`/pool/i.test(codeContent)`. -/
def hasPoolingIndicator (a : AppContent) : Bool :=
  testCI (lits "pool") (joinedContent a)

/-- The SQLite test used for the concurrency-risk estimate:
`stackProfile.database?.toLowerCase().includes("sqlite")`,
`undefined` (falsy) when no database was detected. -/
def isSQLiteDetected (a : AppContent) : Bool :=
  match (detectStack a).database with
  | some d => strIncludes (strLower d) "sqlite"
  | none => false

/-- `analyzePatterns` (the implemented version in
src/server/services/appUnderstanding.ts). -/
def analyzePatterns (a : AppContent) : BehaviorProfile :=
  let codeContent := joinedContent a
  let isStateful := statePatterns.any (testPattern codeContent)
  let writeCount := writePatterns.foldl (fun n p => n + countCI p codeContent) 0
  let readCount := readPatterns.foldl (fun n p => n + countCI p codeContent) 0
  let writeHeavy := writeCount > readCount
  let bgJobs := bgJobPatterns.any (fun p => testCI p codeContent)
  let uploads := uploadPatterns.any (fun p => testCI p codeContent)
  let depCount := match a.packageJson with
    | some pj => (mergeRecords pj.dependencies pj.devDependencies).length
    | none => 0
  let isSQLite := isSQLiteDetected a
  let hasPooling := hasPoolingIndicator a
  let risk :=
    if (isSQLite && writeHeavy) || (isStateful && !hasPooling) then
      ConcRisk.high
    else if bgJobs || decide (depCount > 10) then ConcRisk.medium
    else ConcRisk.low
  { is_stateful := isStateful
    write_heavy := writeHeavy
    has_background_jobs := bgJobs
    has_file_uploads := uploads
    estimated_concurrency_risk := risk
    external_dependency_count := depCount }

-- ## calculateLaunchConfidence (src/server/services/appUnderstanding.ts)

/-- The result record of `calculateLaunchConfidence`. -/
structure ConfidenceResult where
  score : Nat
  factors : List String
deriving DecidableEq, Repr

/-- `stackProfile.database || (stackProfile.databases &&
stackProfile.databases[0])`, with JavaScript truthiness on the first
disjunct. -/
def dbOfStack (s : StackProfile) : Option String :=
  if jsTruthy s.database then s.database else s.databases.head?

/-- `calculateLaunchConfidence`: the additive four-factor point model
with its explanatory factor strings, in source order. -/
def calculateLaunchConfidence (s : StackProfile) (b : BehaviorProfile) :
    ConfidenceResult :=
  let part1 : Nat × List String :=
    if !b.is_stateful then (30, ["App is stateless (safer)"])
    else (10, ["App is stateful (needs careful scaling)"])
  let part2 : Nat × List String :=
    if !b.write_heavy then (30, ["Clean read-heavy data access"])
    else (10, ["Write-heavy workload (watch for bottlenecks)"])
  let database := dbOfStack s
  let dbFactors : List String :=
    if jsTruthy database then
      let d := strLower (database.getD "")
      if strIncludes d "postgresql" || strIncludes d "postgres" ||
          strIncludes d "managed" then
        ["Uses managed database (lower risk)"]
      else if strIncludes d "sqlite" || strIncludes d "file" then
        ["Uses SQLite (consider upgrade for production)"]
      else []
    else []
  let depCount := b.external_dependency_count
  let part3 : Nat × List String :=
    if depCount < 3 then
      (20, [s!"Has {depCount} external dependencies (minimal risk)"])
    else if depCount ≤ 5 then
      (10, [s!"Has {depCount} external API dependencies"])
    else
      (5, [s!"Has {depCount} external dependencies (monitor reliability)"])
  let part4 : Nat × List String :=
    match b.estimated_concurrency_risk with
    | ConcRisk.low => (20, ["Low concurrency risk"])
    | ConcRisk.medium => (10, ["Medium concurrency risk"])
    | ConcRisk.high => (5, ["High concurrency risk (plan for scaling)"])
  let bgFactors : List String :=
    if !b.has_background_jobs then ["No background jobs detected"]
    else ["Has background jobs (ensure separation from main app)"]
  { score := part1.1 + part2.1 + part3.1 + part4.1
    factors := part1.2 ++ part2.2 ++ dbFactors ++ part3.2 ++ part4.2 ++
      bgFactors }

-- ## detectRisks (src/server/services/appUnderstanding.ts)

/-- The five trigger rules of `detectRisks`, each contributing zero or
one candidate, in source order. -/
def riskCandidates (s : StackProfile) (b : BehaviorProfile) :
    List RiskScenario :=
  let database := dbOfStack s
  let dLower := strLower (database.getD "")
  let rule1 :=
    if b.write_heavy && jsTruthy database &&
        (strIncludes dLower "sqlite" ||
          (!strIncludes dLower "postgresql" &&
            !strIncludes dLower "postgres" &&
            !strIncludes dLower "managed")) then
      [{ id := "db-contention"
         title := "Database contention"
         plain_explanation := "Your database isn\x27t built for lots of writes at once. If 10 people hit it simultaneously, they\x27ll all wait in line."
         trigger_condition := "write_heavy AND database is sqlite OR not managed"
         user_symptom := "Slower responses under heavy use"
         severity := if b.estimated_concurrency_risk = ConcRisk.high then
           Severity.high else Severity.medium
         order := 1 }]
    else []
  let platform := s.deployment_platform.map strLower
  let pl := platform.getD ""
  let rule2 :=
    if jsTruthy platform &&
        (strIncludes pl "vercel" || strIncludes pl "netlify" ||
          strIncludes pl "lambda" || strIncludes pl "serverless") then
      [{ id := "cost-explosion"
         title := "Surprise cost increase"
         plain_explanation := "On serverless platforms, a sudden spike in traffic can lead to unexpected bills. Watch your usage metrics closely."
         trigger_condition := "serverless platform detected"
         user_symptom := "Unexpected hosting bills"
         severity := Severity.medium
         order := 2 }]
    else []
  let n := b.external_dependency_count
  let rule3 :=
    if n > 2 then
      [{ id := "external-deps"
         title := "External dependency risk"
         plain_explanation := s!"You\x27re relying on {n} external APIs. If any go down or slow down, your app feels it."
         trigger_condition := "external_dependency_count > 2"
         user_symptom := "Intermittent failures or slow responses"
         severity := if n > 5 then Severity.high else Severity.medium
         order := 3 }]
    else []
  let rule4 :=
    if b.has_background_jobs && (b.write_heavy || b.is_stateful) then
      [{ id := "background-blocking"
         title := "Long-running tasks block users"
         plain_explanation := "Background jobs are running on the same server as user requests. Heavy processing can slow down the whole app."
         trigger_condition := "has_background_jobs AND (stateful OR write_heavy)"
         user_symptom := "App feels sluggish during processing"
         severity := Severity.medium
         order := 4 }]
    else []
  let rule5 :=
    if b.is_stateful || b.estimated_concurrency_risk = ConcRisk.high then
      [{ id := "concurrency-risk"
         title := "Growth may expose concurrency issues"
         plain_explanation := "Your app maintains state or has high concurrency risk. When traffic increases, race conditions or data conflicts could appear."
         trigger_condition := "is_stateful OR estimated_concurrency_risk high"
         user_symptom := "Data inconsistencies or crashes under load"
         severity := if b.is_stateful then Severity.high else Severity.medium
         order := 5 }]
    else []
  rule1 ++ rule2 ++ rule3 ++ rule4 ++ rule5

/-- The `severityWeight` table. -/
def severityWeight : Severity → Nat
  | Severity.high => 3
  | Severity.medium => 2
  | Severity.low => 1

/-- The sort order of `detectRisks`: severity weight descending, then
display order ascending.  An element may come before another exactly
when the source comparator does not demand the opposite order; on the
candidates the keys are distinct, so the sorted arrangement is unique
and stability is irrelevant. -/
def riskLE (a b : RiskScenario) : Prop :=
  severityWeight b.severity < severityWeight a.severity ∨
  (severityWeight b.severity = severityWeight a.severity ∧ a.order ≤ b.order)

instance : DecidableRel riskLE := fun a b => by
  unfold riskLE
  exact inferInstance

instance : IsTotal RiskScenario riskLE := by
  constructor
  intro a b
  unfold riskLE
  omega

instance : IsTrans RiskScenario riskLE := by
  constructor
  intro a b c
  unfold riskLE
  omega

/-- `detectRisks`: collect the firing candidates, sort by the comparator
and return the first three. -/
def detectRisks (s : StackProfile) (b : BehaviorProfile) :
    List RiskScenario :=
  (List.insertionSort riskLE (riskCandidates s b)).take 3

-- ## recommendPlatform (src/server/services/appUnderstanding.ts)

/-- The internal `PlatformScore` record of `recommendPlatform`. -/
structure PlatformScore where
  id : String
  name : String
  score : Int
  whyBullets : List String
  whenItChanges : String
  confidenceNote : String
deriving DecidableEq, Repr

/-- The Replit candidate built by `recommendPlatform`. -/
def replitCandidate (s : StackProfile) (b : BehaviorProfile) :
    PlatformScore :=
  let runtime := s.runtime.map strLower
  let step1 : Int × List String :=
    if !b.is_stateful && b.estimated_concurrency_risk = ConcRisk.low then
      (50 + 30, ["Simple setup for low-to-moderate traffic"])
    else (50, [])
  let step2 : Int × List String :=
    if runtime = some "node" || runtime = some "python" then
      (step1.1 + 20, step1.2 ++ ["Great support for Node.js and Python"])
    else step1
  { id := "replit"
    name := "Replit"
    score := step2.1
    whyBullets := step2.2.take 2
    whenItChanges := "If usage grows 5–10×, this setup may need an upgrade."
    confidenceNote := "You\x27re not missing out by staying here." }

/-- `!!(stackProfile.database || (stackProfile.databases &&
stackProfile.databases.length > 0))`. -/
def hasDatabaseOf (s : StackProfile) : Bool :=
  jsTruthy s.database || decide (s.databases.length > 0)

/-- The Vercel candidate built by `recommendPlatform`. -/
def vercelCandidate (s : StackProfile) (b : BehaviorProfile) :
    PlatformScore :=
  let framework := s.framework.map strLower
  let hasDatabase := hasDatabaseOf s
  let fw := framework.getD ""
  let step1 : Int × List String :=
    if framework.isSome && (strIncludes fw "next" || strIncludes fw "react")
    then (50 + 40, ["Built for Next.js and React apps"])
    else (50, [])
  let step2 : Int × List String :=
    if !hasDatabase && !b.write_heavy then
      (step1.1 + 20, step1.2 ++ ["Perfect for serverless API routes"])
    else step1
  let score3 : Int :=
    if b.is_stateful || hasDatabase then step2.1 - 20 else step2.1
  { id := "vercel"
    name := "Vercel"
    score := score3
    whyBullets := step2.2.take 2
    whenItChanges := "If you add databases or stateful features, consider Railway."
    confidenceNote := "Best for static sites and serverless functions." }

/-- The Railway candidate built by `recommendPlatform`. -/
def railwayCandidate (s : StackProfile) (b : BehaviorProfile) :
    PlatformScore :=
  let hasDatabase := hasDatabaseOf s
  let step1 : Int × List String :=
    if hasDatabase then (50 + 30, ["Excellent database support"])
    else (50, [])
  let step2 : Int × List String :=
    if b.has_background_jobs then
      (step1.1 + 25, step1.2 ++ ["Handles background jobs well"])
    else step1
  let score3 : Int := if b.write_heavy then step2.1 + 15 else step2.1
  { id := "railway"
    name := "Railway"
    score := score3
    whyBullets := step2.2.take 2
    whenItChanges := "If you need multi-region or advanced scaling, look at Fly.io."
    confidenceNote := "Great balance of simplicity and power." }

/-- The Fly.io candidate built by `recommendPlatform`. -/
def flyCandidate (s : StackProfile) (b : BehaviorProfile) :
    PlatformScore :=
  let hasDatabase := hasDatabaseOf s
  let step1 : Int × List String :=
    if b.is_stateful then (50 + 35, ["Built for stateful applications"])
    else (50, [])
  let step2 : Int × List String :=
    if b.estimated_concurrency_risk = ConcRisk.high then
      (step1.1 + 25, step1.2 ++ ["Handles high concurrency well"])
    else step1
  let score3 : Int :=
    if hasDatabase && b.write_heavy then step2.1 + 20 else step2.1
  { id := "fly"
    name := "Fly.io"
    score := score3
    whyBullets := step2.2.take 2
    whenItChanges := "This scales with you through production."
    confidenceNote := "Best for apps that need global distribution." }

/-- The `platforms` array of `recommendPlatform`, in push order. -/
def platformCandidates (s : StackProfile) (b : BehaviorProfile) :
    List PlatformScore :=
  [replitCandidate s b, vercelCandidate s b, railwayCandidate s b,
   flyCandidate s b]

/-- The sort order used on platforms: score descending.  The source
comparator is run by a stable sort, which insertion sort with this
non-strict relation reproduces exactly. -/
def platformGE (a b : PlatformScore) : Prop := b.score ≤ a.score

instance : DecidableRel platformGE := fun a b => by
  unfold platformGE
  exact inferInstance

instance : IsTotal PlatformScore platformGE := by
  constructor
  intro a b
  unfold platformGE
  omega

instance : IsTrans PlatformScore platformGE := by
  constructor
  intro a b c
  unfold platformGE
  omega

/-- `recommendPlatform`: score the four candidates, sort by score
descending, keep the current platform when it still scores at least 70,
otherwise recommend the best candidate.  The empty match arm is
unreachable because the candidate list always has four elements. -/
def recommendPlatform (s : StackProfile) (b : BehaviorProfile)
    (currentPlatform : Option String) : PlatformRecommendation :=
  let platforms := List.insertionSort platformGE (platformCandidates s b)
  let stay : Option PlatformRecommendation :=
    if jsTruthy currentPlatform then
      let normalized := strLower (currentPlatform.getD "")
      match platforms.find? (fun p => strIncludes normalized p.id) with
      | some current =>
        if current.score ≥ 70 then
          some
            { platform_id := current.id
              platform_name := current.name
              recommended_badge := "✅ Stay where you are"
              why_bullets :=
                if current.whyBullets.length > 0 then current.whyBullets
                else ["Handles your current usage well",
                      "No urgent need to change"]
              when_it_changes := current.whenItChanges
              confidence_note := current.confidenceNote }
        else none
      | none => none
    else none
  match stay with
  | some r => r
  | none =>
    match platforms with
    | best :: _ =>
      { platform_id := best.id
        platform_name := best.name
        recommended_badge :=
          if jsTruthy currentPlatform then "⚠️ Consider upgrading"
          else "✅ Recommended right now"
        why_bullets :=
          if best.whyBullets.length > 0 then best.whyBullets
          else ["Best fit for your app\x27s needs",
                "Balances simplicity and capability"]
        when_it_changes := best.whenItChanges
        confidence_note := best.confidenceNote }
    | [] =>
      { platform_id := ""
        platform_name := ""
        recommended_badge := ""
        why_bullets := []
        when_it_changes := ""
        confidence_note := "" }

-- ## recommendNextStep (src/server/services/appUnderstanding.ts)

/-- `recommendNextStep`: staged, first-matching-rule recommendation.
The source has an unreachable trailing fallback after the four stage
branches; with the stage enum the match is exhaustive without it. -/
def recommendNextStep (s : StackProfile) (b : BehaviorProfile)
    (stage : Stage) : NextBestStepRecommendation :=
  let database := dbOfStack s
  let dLower := strLower (database.getD "")
  let dbSqlite := jsTruthy database && strIncludes dLower "sqlite"
  let hasHighRisk :=
    b.estimated_concurrency_risk = ConcRisk.high || b.is_stateful ||
    decide (b.external_dependency_count > 5)
  match stage with
  | Stage.mvp =>
    if b.write_heavy && dbSqlite then
      { mode := NextMode.watch_one_thing
        headline := "Keep an eye on database usage"
        explanation := "Your SQLite database works fine for now. When you hit ~50 concurrent users, you\x27ll want to upgrade to PostgreSQL."
        cta_text := "Enable Watch Mode"
        upgrade_required := false }
    else if b.has_background_jobs then
      { mode := NextMode.watch_one_thing
        headline := "Monitor background job performance"
        explanation := "Background jobs are running on the same server. This is fine for MVP, but watch for slowdowns."
        cta_text := "Get alerts when things change"
        upgrade_required := false }
    else
      { mode := NextMode.do_nothing
        headline := "Nothing right now."
        explanation := "You\x27re in a good place. Focus on your product."
        cta_text := "We can watch this for you"
        upgrade_required := false }
  | Stage.watch | Stage.growth =>
    if dbSqlite && b.write_heavy then
      { mode := NextMode.small_upgrade
        headline := "Before charging users, switch to managed DB"
        explanation := "SQLite works for testing, but you\x27ll want PostgreSQL or a managed database before going live with paying customers."
        cta_text := "Show me how to upgrade"
        upgrade_required := stage = Stage.growth }
    else if b.has_background_jobs && b.is_stateful then
      { mode := NextMode.small_upgrade
        headline := "Separate background jobs from main app"
        explanation := "Move long-running tasks to a separate service or queue to keep your main app responsive."
        cta_text := "See upgrade options"
        upgrade_required := false }
    else if b.external_dependency_count > 3 then
      { mode := NextMode.watch_one_thing
        headline := "Add monitoring for external APIs"
        explanation := "You\x27re relying on several external services. Set up alerts so you know when they slow down or fail."
        cta_text := "Enable API monitoring"
        upgrade_required := false }
    else
      { mode := NextMode.watch_one_thing
        headline := "Watch for traffic patterns"
        explanation := "Your setup is solid. Keep an eye on usage patterns to catch issues before they affect users."
        cta_text := "Enable Watch Mode"
        upgrade_required := false }
  | Stage.production =>
    if hasHighRisk then
      { mode := NextMode.small_upgrade
        headline := "Reduce concurrency risks"
        explanation := "Your app has high concurrency risk. Consider adding caching, connection pooling, or load balancing."
        cta_text := "Review upgrade plan"
        upgrade_required := true }
    else if jsTruthy database && !strIncludes dLower "postgresql" &&
        !strIncludes dLower "managed" then
      { mode := NextMode.small_upgrade
        headline := "Upgrade to managed database"
        explanation := "For production stability, use a managed database service with automatic backups and scaling."
        cta_text := "See migration guide"
        upgrade_required := true }
    else if b.has_background_jobs then
      { mode := NextMode.small_upgrade
        headline := "Use dedicated job queue"
        explanation := "Production apps need reliable background processing. Consider Redis-backed queues or dedicated workers."
        cta_text := "View job queue options"
        upgrade_required := false }
    else
      { mode := NextMode.watch_one_thing
        headline := "Monitor for regressions"
        explanation := "Your production setup is solid. Watch for performance regressions as you add features."
        cta_text := "Enable Production Plus"
        upgrade_required := false }

-- ## generateLaunchVerdict (src/server/services/appUnderstanding.ts)

/-- `generateLaunchVerdict`: composes confidence, risks, platform
recommendation, stage derivation, next step, status derivation and the
one-line summary. -/
def generateLaunchVerdict (analysis : AppAnalysis) : LaunchVerdict :=
  let s := analysis.stack_detection
  let b := analysis.behavior_profile
  let confidence := calculateLaunchConfidence s b
  let risks := detectRisks s b
  let platformRecommendation :=
    recommendPlatform s b s.deployment_platform
  let stage :=
    if confidence.score ≥ 80 then Stage.production
    else if confidence.score ≥ 65 then Stage.growth
    else if confidence.score ≥ 50 then Stage.watch
    else Stage.mvp
  let nextBestStep := recommendNextStep s b stage
  let status :=
    if confidence.score ≥ 80 then VerdictStatus.safe
    else if confidence.score ≥ 50 then VerdictStatus.watch
    else VerdictStatus.fix
  let oneLine :=
    match status with
    | VerdictStatus.safe =>
      match risks with
      | [] => "Your app is safe to launch. The current setup handles your needs well."
      | r :: _ => s!"Your app is safe to share. {r.user_symptom} may appear as you grow."
    | VerdictStatus.watch =>
      match risks with
      | r :: _ => "Your app works now, but watch for: " ++
          strLower r.user_symptom
      | [] => "Your app is functional. Monitor usage patterns as you grow."
    | VerdictStatus.fix =>
      match risks with
      | r :: _ => s!"Fix before launch: {r.plain_explanation}"
      | [] => "Your app needs improvements before handling production traffic."
  { analysis_id := analysis.id
    status := status
    confidence_score := confidence.score
    one_line_summary := oneLine
    risks := risks
    platform_recommendation := platformRecommendation
    next_best_step := nextBestStep }

-- ## evaluateAlerts (src/server/services/alertOrchestrator.ts)

/-- A persisted alert row as read back by the cooldown query; timestamps
are modelled as integer seconds. -/
structure AlertRow where
  user_id : String
  analysis_id : String
  category : AlertCategory
  created_at : Int
deriving DecidableEq, Repr

/-- The `Alert` record built by `createAlert` (the id is filled in later
by the database and is the empty string here). -/
structure AlertOut where
  id : String
  user_id : String
  analysis_id : String
  category : AlertCategory
  severity : AlertSeverity
  title : String
  body : String
  what_changed : String
  next_step : String
  created_at : Int
deriving DecidableEq, Repr

/-- `createAlert` (src/server/services/alertOrchestrator.ts); the
creation timestamp is the evaluation time. -/
def createAlert (userId analysisId : String) (category : AlertCategory)
    (severity : AlertSeverity) (title body what_changed next_step : String)
    (now : Int) : AlertOut :=
  { id := ""
    user_id := userId
    analysis_id := analysisId
    category := category
    severity := severity
    title := title
    body := body
    what_changed := what_changed
    next_step := next_step
    created_at := now }

/-- Seconds in seven days, the cooldown window of the SQL filter
`created_at > NOW() - INTERVAL 7 days`. -/
def sevenDays : Int := 7 * 86400

/-- The rows returned by the cooldown query: alerts of this user and
analysis created within the trailing seven days. -/
def recentAlertRows (now : Int) (db : List AlertRow)
    (userId analysisId : String) : List AlertRow :=
  db.filter (fun r =>
    r.user_id == userId && r.analysis_id == analysisId &&
    decide (now - sevenDays < r.created_at))

/-- The lowercase display string of a concurrency risk, as interpolated
into alert text. -/
def riskStr : ConcRisk → String
  | ConcRisk.low => "low"
  | ConcRisk.medium => "medium"
  | ConcRisk.high => "high"

/-- The five trigger conditions of `evaluateAlerts`, one per category,
each evaluated on (previous, new) profile. -/
def categoryTriggered (c : AlertCategory) (prev newP : BehaviorProfile) :
    Bool :=
  match c with
  | AlertCategory.usage_growth =>
    !(prev.estimated_concurrency_risk = ConcRisk.high) &&
    newP.estimated_concurrency_risk = ConcRisk.high
  | AlertCategory.cost_risk =>
    newP.external_dependency_count > prev.external_dependency_count + 2
  | AlertCategory.architecture_drift =>
    !prev.is_stateful && newP.is_stateful
  | AlertCategory.platform_suitability =>
    newP.has_background_jobs && newP.write_heavy
  | AlertCategory.stability_regression =>
    !prev.has_background_jobs && newP.has_background_jobs

/-- `evaluateAlerts` (src/server/services/alertOrchestrator.ts): the
database read is passed in explicitly as the row list plus the current
time; without a previous profile the result is empty; otherwise each of
the five category rules fires unless its category was already notified
within the window. -/
def evaluateAlerts (now : Int) (db : List AlertRow)
    (analysisId userId : String) (newProfile : BehaviorProfile)
    (previousProfile : Option BehaviorProfile) : List AlertOut :=
  let recentAlerts := recentAlertRows now db userId analysisId
  let recentCategories := recentAlerts.map (fun a => a.category)
  match previousProfile with
  | none => []
  | some prev =>
    let a1 :=
      if !recentCategories.contains AlertCategory.usage_growth &&
          categoryTriggered AlertCategory.usage_growth prev newProfile then
        [createAlert userId analysisId AlertCategory.usage_growth
          AlertSeverity.heads_up
          "Your app is handling more traffic"
          "We noticed your app\x27s usage patterns have changed. This is a good sign — it means people are using it more."
          ("Concurrency risk increased from " ++
            riskStr prev.estimated_concurrency_risk ++ " to high")
          "Keep an eye on response times. If things slow down, we\x27ll let you know what to do."
          now]
      else []
    let a2 :=
      if !recentCategories.contains AlertCategory.cost_risk &&
          categoryTriggered AlertCategory.cost_risk prev newProfile then
        [createAlert userId analysisId AlertCategory.cost_risk
          AlertSeverity.informational
          "New external services detected"
          "Your app now connects to more external services. This is fine, but each service may have its own costs."
          ("External dependencies increased from " ++
            toString prev.external_dependency_count ++ " to " ++
            toString newProfile.external_dependency_count)
          "Review the pricing for any new services you\x27re using."
          now]
      else []
    let a3 :=
      if !recentCategories.contains AlertCategory.architecture_drift &&
          categoryTriggered AlertCategory.architecture_drift prev newProfile
      then
        [createAlert userId analysisId AlertCategory.architecture_drift
          AlertSeverity.heads_up
          "Your app now stores state"
          "We detected that your app has started storing data in memory or files. This works fine now, but may cause issues if you need to run multiple copies."
          "App changed from stateless to stateful"
          "Consider using a database for important data instead of in-memory storage."
          now]
      else []
    let a4 :=
      if !recentCategories.contains AlertCategory.platform_suitability &&
          categoryTriggered AlertCategory.platform_suitability prev newProfile
      then
        [createAlert userId analysisId AlertCategory.platform_suitability
          AlertSeverity.action_soon
          "Your setup might need an upgrade soon"
          "With background jobs and frequent database writes, you\x27re doing things that work better with dedicated resources."
          "Detected background jobs combined with write-heavy patterns"
          "When you\x27re ready, we can show you a smoother setup."
          now]
      else []
    let a5 :=
      if !recentCategories.contains AlertCategory.stability_regression &&
          categoryTriggered AlertCategory.stability_regression prev newProfile
      then
        [createAlert userId analysisId AlertCategory.stability_regression
          AlertSeverity.informational
          "Background tasks detected"
          "Your app now runs tasks in the background. This is common, but make sure long tasks don\x27t slow down user requests."
          "Background jobs were added"
          "Consider moving heavy tasks to a separate queue if response times suffer."
          now]
      else []
    a1 ++ a2 ++ a3 ++ a4 ++ a5

-- ## Theorems

/-- The empty input: no files, no manifest, no requirements text. -/
def emptyApp : AppContent :=
  { files := [], packageJson := none, requirements := none }

/-- The all-clear behavior profile the spec expects on empty input. -/
def emptyBehavior : BehaviorProfile :=
  { is_stateful := false, write_heavy := false, has_background_jobs := false,
    has_file_uploads := false, estimated_concurrency_risk := ConcRisk.low,
    external_dependency_count := 0 }

/-- The fully absent stack profile the spec expects on empty input. -/
def emptyStack : StackProfile :=
  { runtime := none, framework := none, database := none, databases := [],
    external_apis := [], has_background_jobs := none,
    has_file_uploads := none, deployment_platform := none }

/-- C8: detection degrades instead of failing.  On the empty file map
with no manifest and no dependency list, `analyzePatterns` returns the
all-false, low-risk, zero-dependency profile; and for EVERY AppContent
with no manifest and no dependency list — the file map arbitrary —
`detectStack` returns the profile with empty lists and absent optional
fields.  Both embeddings are total functions, so no exception is
possible. -/
theorem empty_input_degrades (a : AppContent)
    (hpj : a.packageJson = none) (hreq : a.requirements = none) :
    analyzePatterns emptyApp = emptyBehavior ∧
    detectStack a = emptyStack := by
  refine ⟨rfl, ?_⟩
  unfold detectStack
  rw [hpj, hreq]
  rfl

theorem empty_input_degrades_witness :
    emptyApp.packageJson = none ∧ emptyApp.requirements = none ∧
    (analyzePatterns emptyApp = emptyBehavior ∧
      detectStack emptyApp = emptyStack) :=
  ⟨rfl, rfl, empty_input_degrades emptyApp rfl rfl⟩

/-- The input stack of the C4 end-to-end scenario. -/
def stackC4 : StackProfile := { database := some "SQLite" }

/-- The input behavior profile of the C4 end-to-end scenario. -/
def behaviorC4 : BehaviorProfile :=
  { is_stateful := false, write_heavy := true, has_background_jobs := false,
    has_file_uploads := false,
    estimated_concurrency_risk := ConcRisk.high,
    external_dependency_count := 1 }

/-- The analysis record of the C4 end-to-end scenario. -/
def analysisC4 : AppAnalysis :=
  { id := "analysis-1", stack_detection := stackC4,
    behavior_profile := behaviorC4 }

/-- C4: for stack = (database SQLite) and the given behavior profile,
the confidence score is 65, the verdict status is watch, and the
top-ranked risk is Database contention with severity high. -/
theorem scenario_sqlite_watch :
    (calculateLaunchConfidence stackC4 behaviorC4).score = 65 ∧
    (generateLaunchVerdict analysisC4).confidence_score = 65 ∧
    (generateLaunchVerdict analysisC4).status = VerdictStatus.watch ∧
    ((detectRisks stackC4 behaviorC4).head?.map
        (fun r => (r.title, r.severity))) =
      some ("Database contention", Severity.high) := by
  refine ⟨by decide, by decide, by decide, by decide⟩

/-- C3: `analyzePatterns` derives the concurrency risk exactly as
specified: high when (the detected database is SQLite-family and the
profile is write-heavy) or (the profile is stateful and no pooling
indicator occurs in the file contents); otherwise medium when the
profile has background jobs or more than 10 external dependencies;
otherwise low, for every input. -/
theorem analyzePatterns_risk_derivation (a : AppContent) :
    (analyzePatterns a).estimated_concurrency_risk =
      (if (isSQLiteDetected a && (analyzePatterns a).write_heavy) ||
          ((analyzePatterns a).is_stateful && !hasPoolingIndicator a) then
        ConcRisk.high
      else if (analyzePatterns a).has_background_jobs ||
          decide ((analyzePatterns a).external_dependency_count > 10) then
        ConcRisk.medium
      else ConcRisk.low) := by
  rfl

/-- The status thresholds of §3: at least 80 safe, at least 50 watch,
otherwise fix.  Stated from the spec as the comparison object for the
inline derivation in `generateLaunchVerdict`. -/
def statusOfScore (score : Nat) : VerdictStatus :=
  if score ≥ 80 then VerdictStatus.safe
  else if score ≥ 50 then VerdictStatus.watch
  else VerdictStatus.fix

/-- Safety rank of a verdict status: fix below watch below safe. -/
def safetyRank : VerdictStatus → Nat
  | VerdictStatus.fix => 0
  | VerdictStatus.watch => 1
  | VerdictStatus.safe => 2

/-- C6: the verdict status is the deterministic threshold function of
the confidence score alone (the verdict built by `generateLaunchVerdict`
always carries `statusOfScore` of its own score), the boundaries sit
exactly at 50 and 80 (49 fix, 50 watch, 79 watch, 80 safe; every score
of the form 80 + n is safe, every 50 + n mod 30 is watch, every
n mod 50 is fix), and the status is monotone in safety as the score
increases. -/
theorem verdict_status_thresholds :
    (∀ analysis : AppAnalysis,
      (generateLaunchVerdict analysis).status =
        statusOfScore (generateLaunchVerdict analysis).confidence_score) ∧
    statusOfScore 49 = VerdictStatus.fix ∧
    statusOfScore 50 = VerdictStatus.watch ∧
    statusOfScore 79 = VerdictStatus.watch ∧
    statusOfScore 80 = VerdictStatus.safe ∧
    (∀ n : Nat, statusOfScore (80 + n) = VerdictStatus.safe) ∧
    (∀ n : Nat, statusOfScore (50 + n % 30) = VerdictStatus.watch) ∧
    (∀ n : Nat, statusOfScore (n % 50) = VerdictStatus.fix) ∧
    (∀ n : Nat,
      safetyRank (statusOfScore n) ≤ safetyRank (statusOfScore (n + 1))) := by
  refine ⟨fun analysis => rfl, by decide, by decide, by decide, by decide,
    ?_, ?_, ?_, ?_⟩
  · intro n
    unfold statusOfScore
    split_ifs with h1 <;> first | rfl | omega
  · intro n
    have h30 : n % 30 < 30 := Nat.mod_lt _ (by omega)
    unfold statusOfScore
    split_ifs with h1 h2 <;> first | rfl | omega
  · intro n
    have h50 : n % 50 < 50 := Nat.mod_lt _ (by omega)
    unfold statusOfScore
    split_ifs with h1 h2 <;> first | rfl | omega
  · intro n
    unfold statusOfScore
    split_ifs <;> simp [safetyRank] <;> omega

/-- C5: `detectRisks` returns the first three of the firing candidates
sorted by severity weight descending with display order ascending as
tie-break: the result has at most 3 items, is sorted by that order, is a
sublist of the sorted candidate list (which is a permutation of the
candidates), and is empty exactly when no rule fires. -/
theorem detectRisks_cap_and_ranking (s : StackProfile)
    (b : BehaviorProfile) :
    detectRisks s b =
      (List.insertionSort riskLE (riskCandidates s b)).take 3 ∧
    (detectRisks s b).length ≤ 3 ∧
    List.Sorted riskLE (detectRisks s b) ∧
    (detectRisks s b).Sublist
      (List.insertionSort riskLE (riskCandidates s b)) ∧
    (List.insertionSort riskLE (riskCandidates s b)).Perm
      (riskCandidates s b) ∧
    (detectRisks s b = [] ↔ riskCandidates s b = []) := by
  have hp := List.perm_insertionSort riskLE (riskCandidates s b)
  refine ⟨rfl, ?_, ?_, List.take_sublist _ _, hp, ?_, ?_⟩
  · rw [detectRisks, List.length_take]
    exact min_le_left _ _
  · exact List.Pairwise.sublist (List.take_sublist _ _)
      (List.sorted_insertionSort riskLE _)
  · intro h
    rw [detectRisks] at h
    rcases List.take_eq_nil_iff.mp h with h3 | hnil
    · exact absurd h3 (by omega)
    · have := hp.length_eq
      rw [hnil] at this
      exact List.length_eq_zero.mp this.symm
  · intro h
    rw [detectRisks, h]
    rfl

-- ## C9 helper lemmas

/-- A fold whose step only ever appends extends its accumulator. -/
theorem foldl_extends {α β : Type} (step : List α → β → List α)
    (hstep : ∀ acc p, ∃ t, step acc p = acc ++ t) :
    ∀ (l : List β) (acc : List α), ∃ t, l.foldl step acc = acc ++ t := by
  intro l
  induction l with
  | nil => intro acc; exact ⟨[], by simp⟩
  | cons p l ih =>
    intro acc
    obtain ⟨t1, h1⟩ := hstep acc p
    obtain ⟨t2, h2⟩ := ih (step acc p)
    exact ⟨t1 ++ t2, by rw [List.foldl_cons, h2, h1, List.append_assoc]⟩

/-- The Python branch preserves the database/databases head invariant. -/
theorem detectStackPython_inv (req : String) (s : StackProfile)
    (h : s.databases.head? = s.database) :
    (detectStackPython req s).databases.head? =
      (detectStackPython req s).database := by
  unfold detectStackPython
  dsimp only
  split_ifs <;> simp_all

/-- The Node.js branch establishes the database/databases head invariant
whenever the incoming profile has no database set. -/
theorem detectStackNode_inv (a : AppContent) (pj : PackageJson)
    (s : StackProfile) (h0 : s.database = none) :
    (detectStackNode a pj s).databases.head? =
      (detectStackNode a pj s).database := by
  unfold detectStackNode
  dsimp only
  split_ifs with h1
  · rfl
  · have hstep : ∀ (acc : List String) (p : String × String),
        ∃ t, (if hasDep (mergeRecords pj.dependencies pj.devDependencies) p.1
            && !(acc.contains p.2) then acc ++ [p.2] else acc) = acc ++ t := by
      intro acc p
      split_ifs with hc
      · exact ⟨[p.2], rfl⟩
      · exact ⟨[], by simp⟩
    obtain ⟨t, ht⟩ := foldl_extends
      (fun acc p =>
        if hasDep (mergeRecords pj.dependencies pj.devDependencies) p.1 &&
          !(acc.contains p.2) then acc ++ [p.2] else acc)
      hstep dbMapping s.databases
    rw [ht] at h1 ⊢
    simp at h1
    simp [h1, h0]

/-- C9: every profile returned by `detectStack` satisfies the invariant
that the optional head of `databases` equals `database`: when `database`
is present it is the first detected database, and when it is absent the
`databases` list is empty (absence of both, in the list model). -/
theorem detectStack_database_invariant (a : AppContent) :
    (detectStack a).databases.head? = (detectStack a).database := by
  unfold detectStack
  dsimp only
  have h1 : ∀ s1 : StackProfile, s1.databases.head? = s1.database →
      (if jsTruthy a.requirements = true
        then detectStackPython (a.requirements.getD "") s1
        else s1).databases.head? =
      (if jsTruthy a.requirements = true
        then detectStackPython (a.requirements.getD "") s1
        else s1).database := by
    intro s1 h
    split_ifs with hr
    · exact detectStackPython_inv _ _ h
    · exact h
  cases hpj : a.packageJson with
  | none => exact h1 _ rfl
  | some pj => exact h1 _ (detectStackNode_inv a pj _ rfl)

-- ## C1 and C2: runtime priority and dev-dependency API detection

/-- The Python branch always sets the runtime to "Python". -/
theorem detectStackPython_runtime (req : String) (s : StackProfile) :
    (detectStackPython req s).runtime = some "Python" := rfl

/-- The Python branch never touches the external API list. -/
theorem detectStackPython_apis (req : String) (s : StackProfile) :
    (detectStackPython req s).external_apis = s.external_apis := rfl

/-- The Node.js branch always sets the runtime to "Node.js". -/
theorem detectStackNode_runtime (a : AppContent) (pj : PackageJson)
    (s : StackProfile) :
    (detectStackNode a pj s).runtime = some "Node.js" := rfl

theorem mem_dedupFirst_aux (x : String) :
    ∀ (xs acc : List String), x ∈ acc ∨ x ∈ xs →
      x ∈ xs.foldl (fun acc y => if acc.contains y then acc else acc ++ [y])
        acc := by
  intro xs
  induction xs with
  | nil =>
    intro acc h
    simpa using h.resolve_right (by simp)
  | cons y ys ih =>
    intro acc h
    rw [List.foldl_cons]
    rcases h with ha | hm
    · refine ih _ (Or.inl ?_)
      split_ifs with hc
      · exact ha
      · exact List.mem_append_left _ ha
    · rcases List.mem_cons.mp hm with he | hys
      · subst he
        refine ih _ (Or.inl ?_)
        split_ifs with hc
        · simpa using hc
        · simp
      · exact ih _ (Or.inr hys)

/-- Deduplication preserves membership. -/
theorem mem_dedupFirst {x : String} {xs : List String} (h : x ∈ xs) :
    x ∈ dedupFirst xs :=
  mem_dedupFirst_aux x xs [] (Or.inr h)

/-- An input carrying both a Node manifest and a Python dependency
list. -/
def appC1 : AppContent :=
  { files := [], packageJson := some {}, requirements := some "flask" }

/-- C1 counterexample: with both a Node manifest and a Python dependency
list present, `detectStack` reports runtime "Python", not the Node value
(and the Node value would be "Node.js", not "node"): the Python branch
runs second and overwrites the runtime, so Python, not Node, takes
priority. -/
theorem runtime_node_priority_counterexample :
    appC1.packageJson.isSome = true ∧ jsTruthy appC1.requirements = true ∧
    (detectStack appC1).runtime = some "Python" ∧
    (detectStack appC1).runtime ≠ some "node" ∧
    (detectStack appC1).runtime ≠ some "Node.js" := by
  refine ⟨rfl, by decide, rfl, by decide, by decide⟩

/-- C1 (amended): whenever an AppContent has both a Node-style manifest
and a non-empty Python dependency list, `detectStack` returns runtime
"Python" — Python takes priority over Node because its branch runs
last. -/
theorem runtime_python_overwrites_node (a : AppContent)
    (h1 : a.packageJson.isSome = true)
    (h2 : jsTruthy a.requirements = true) :
    (detectStack a).runtime = some "Python" := by
  unfold detectStack
  dsimp only
  cases hpj : a.packageJson with
  | none => rw [hpj] at h1; simp at h1
  | some pj => simp [h2, detectStackPython_runtime]

theorem runtime_python_overwrites_node_witness :
    appC1.packageJson.isSome = true ∧ jsTruthy appC1.requirements = true ∧
    (detectStack appC1).runtime = some "Python" :=
  ⟨by decide, by decide,
    runtime_python_overwrites_node appC1 (by decide) (by decide)⟩

/-- C2 (amended): dev-only dependencies DO count toward external API
detection: the source merges `dependencies` and `devDependencies` into
one record and scans the merged keys, so any manifest whose merged
dependency keys contain "stripe" as a substring yields "Stripe" in
`external_apis`. -/
theorem devdep_counts_for_external_apis (a : AppContent) (pj : PackageJson)
    (hpj : a.packageJson = some pj)
    (hs : (mergeRecords pj.dependencies pj.devDependencies).any
      (fun d => strIncludes d.1 "stripe") = true) :
    "Stripe" ∈ (detectStack a).external_apis := by
  unfold detectStack
  dsimp only
  rw [hpj]
  have hnode : "Stripe" ∈ (detectStackNode a pj
      { external_apis := [], databases := [] }).external_apis := by
    show "Stripe" ∈ apiPatterns.foldl
      (fun acc p =>
        if (mergeRecords pj.dependencies pj.devDependencies).any
          (fun d => strIncludes d.1 p.1) then acc ++ [p.2] else acc)
      []
    have hstep : ∀ (acc : List String) (p : String × String),
        ∃ t, (if (mergeRecords pj.dependencies pj.devDependencies).any
            (fun d => strIncludes d.1 p.1) then acc ++ [p.2] else acc) =
          acc ++ t := by
      intro acc p
      split_ifs with hc
      · exact ⟨[p.2], rfl⟩
      · exact ⟨[], by simp⟩
    rw [show apiPatterns = ("stripe", "Stripe") :: apiPatterns.tail from rfl,
      List.foldl_cons]
    obtain ⟨t, ht⟩ := foldl_extends
      (fun acc p =>
        if (mergeRecords pj.dependencies pj.devDependencies).any
          (fun d => strIncludes d.1 p.1) then acc ++ [p.2] else acc)
      hstep apiPatterns.tail
      (if (mergeRecords pj.dependencies pj.devDependencies).any
        (fun d => strIncludes d.1 "stripe") then [] ++ ["Stripe"] else [])
    rw [ht, hs]
    simp
  by_cases hr : jsTruthy a.requirements = true
  · simp only [hr, if_true]
    rw [detectStackPython_apis]
    exact mem_dedupFirst hnode
  · simp only [Bool.not_eq_true] at hr
    simp only [hr, Bool.false_eq_true, if_false]
    exact mem_dedupFirst hnode

/-- The manifest of the C2 counterexample: stripe only under
devDependencies, no regular dependencies. -/
def pjC2 : PackageJson :=
  { dependencies := [], devDependencies := [("stripe", "^12.0.0")] }

/-- The input of the C2 counterexample. -/
def appC2 : AppContent :=
  { files := [], packageJson := some pjC2, requirements := none }

/-- C2 counterexample: a manifest declaring "stripe" only under
devDependencies (and nothing under dependencies) still produces "Stripe"
in `external_apis`, contradicting the claim that dev-only dependencies
never contribute. -/
theorem devdep_external_api_counterexample :
    (appC2.packageJson.map (fun pj => pj.dependencies)) = some [] ∧
    (appC2.packageJson.map (fun pj => pj.devDependencies)) =
      some [("stripe", "^12.0.0")] ∧
    "Stripe" ∈ (detectStack appC2).external_apis := by
  refine ⟨rfl, rfl, by decide⟩

theorem devdep_counts_for_external_apis_witness :
    "Stripe" ∈ (detectStack appC2).external_apis :=
  devdep_counts_for_external_apis appC2 pjC2 (by decide) (by decide)

/-- With a Node manifest and no (truthy) Python dependency list, the
detected runtime is the display string "Node.js". -/
theorem detectStack_runtime_node (a : AppContent)
    (h1 : a.packageJson.isSome = true)
    (h2 : jsTruthy a.requirements = false) :
    (detectStack a).runtime = some "Node.js" := by
  unfold detectStack
  dsimp only
  cases hpj : a.packageJson with
  | none => rw [hpj] at h1; simp at h1
  | some pj => simp [h2, detectStackNode_runtime]

/-- C10: for a stack detected from a Node-style manifest without a
Python dependency list the runtime is "Node.js"; its lowercase form
"node.js" is equal to neither "node" nor "python", so the Replit
candidate inside `recommendPlatform` never receives the +20 runtime
bonus (its score is 50 plus at most the 30-point low-traffic bonus) and
never carries the "Great support for Node.js and Python" bullet. -/
theorem replit_runtime_bonus_never_fires (a : AppContent)
    (b : BehaviorProfile)
    (h1 : a.packageJson.isSome = true)
    (h2 : jsTruthy a.requirements = false) :
    (detectStack a).runtime = some "Node.js" ∧
    (replitCandidate (detectStack a) b).score =
      50 + (if !b.is_stateful &&
          b.estimated_concurrency_risk = ConcRisk.low then 30 else 0) ∧
    "Great support for Node.js and Python" ∉
      (replitCandidate (detectStack a) b).whyBullets := by
  have hrt := detectStack_runtime_node a h1 h2
  have hlow : (detectStack a).runtime.map strLower = some "node.js" := by
    rw [hrt]; rfl
  refine ⟨hrt, ?_, ?_⟩
  · unfold replitCandidate
    dsimp only
    rw [hlow]
    split_ifs <;> simp_all
  · unfold replitCandidate
    dsimp only
    rw [hlow]
    split_ifs <;> simp_all

/-- The input of the C10 witness: a Node manifest, no requirements. -/
def appC10 : AppContent :=
  { files := [], packageJson := some {}, requirements := none }

/-- The behavior profile of the C10 witness. -/
def behaviorC10 : BehaviorProfile :=
  { is_stateful := false, write_heavy := false, has_background_jobs := false,
    has_file_uploads := false, estimated_concurrency_risk := ConcRisk.low,
    external_dependency_count := 2 }

theorem replit_runtime_bonus_never_fires_witness :
    (detectStack appC10).runtime = some "Node.js" ∧
    (replitCandidate (detectStack appC10) behaviorC10).score =
      50 + (if !behaviorC10.is_stateful &&
          behaviorC10.estimated_concurrency_risk = ConcRisk.low then 30
        else 0) ∧
    "Great support for Node.js and Python" ∉
      (replitCandidate (detectStack appC10) behaviorC10).whyBullets :=
  replit_runtime_bonus_never_fires appC10 behaviorC10 (by decide) (by decide)

theorem mem_cat_guard_append (g : Bool) (A : AlertOut)
    (rest : List AlertOut) (c : AlertCategory) :
    (∃ al ∈ (if g then [A] else []) ++ rest, al.category = c) ↔
      ((g = true ∧ A.category = c) ∨ ∃ al ∈ rest, al.category = c) := by
  split_ifs with hg <;> simp_all

/-- Which categories appear in the output of `evaluateAlerts`: exactly
those not on cooldown whose trigger condition holds. -/
theorem evaluateAlerts_category_iff (now : Int) (db : List AlertRow)
    (aid uid : String) (newP prev : BehaviorProfile) (c : AlertCategory) :
    (∃ al ∈ evaluateAlerts now db aid uid newP (some prev),
      al.category = c) ↔
    (c ∉ (recentAlertRows now db uid aid).map (fun a => a.category) ∧
      categoryTriggered c prev newP = true) := by
  unfold evaluateAlerts
  dsimp only
  simp only [List.append_assoc]
  rw [mem_cat_guard_append, mem_cat_guard_append, mem_cat_guard_append,
    mem_cat_guard_append]
  have hlast : ∀ (g : Bool) (A : AlertOut),
      (∃ al ∈ (if g then [A] else []), al.category = c) ↔
        (g = true ∧ A.category = c) := by
    intro g A
    split_ifs with hg <;> simp_all
  rw [hlast]
  cases c <;>
    simp [createAlert, List.contains, List.elem_iff, Bool.and_eq_true,
      categoryTriggered]

/-- C7: per-category 7-day cooldown.  With a previous profile supplied:
(1) if any alert row for the same user and analysis with category c was
created within the trailing seven days, the round emits no alert of
category c, whatever the trigger conditions; (2) if every row of
category c for that user and analysis is at least seven days old, a
newly-triggering condition for c does emit an alert of category c. -/
theorem alert_category_cooldown (now : Int) (db : List AlertRow)
    (aid uid : String) (newP prev : BehaviorProfile) (c : AlertCategory) :
    ((∃ r ∈ db, r.user_id = uid ∧ r.analysis_id = aid ∧ r.category = c ∧
        now - sevenDays < r.created_at) →
      ∀ al ∈ evaluateAlerts now db aid uid newP (some prev),
        al.category ≠ c) ∧
    ((∀ r ∈ db, r.user_id = uid → r.analysis_id = aid → r.category = c →
        r.created_at ≤ now - sevenDays) →
      categoryTriggered c prev newP = true →
      ∃ al ∈ evaluateAlerts now db aid uid newP (some prev),
        al.category = c) := by
  constructor
  · rintro ⟨r, hr, hu, ha, hc, ht⟩ al hal hcat
    have hmem : c ∈ (recentAlertRows now db uid aid).map
        (fun a => a.category) := by
      refine List.mem_map.mpr ⟨r, ?_, hc⟩
      unfold recentAlertRows
      rw [List.mem_filter]
      exact ⟨hr, by simp [hu, ha, ht]⟩
    have := (evaluateAlerts_category_iff now db aid uid newP prev c).mp
      ⟨al, hal, hcat⟩
    exact this.1 hmem
  · intro hold htrig
    refine (evaluateAlerts_category_iff now db aid uid newP prev c).mpr
      ⟨?_, htrig⟩
    intro hmem
    obtain ⟨r, hr, hc⟩ := List.mem_map.mp hmem
    unfold recentAlertRows at hr
    rw [List.mem_filter] at hr
    obtain ⟨hrdb, hcond⟩ := hr
    simp only [Bool.and_eq_true, beq_iff_eq, decide_eq_true_eq] at hcond
    have := hold r hrdb hcond.1.1 hcond.1.2 hc
    omega

/-- Previous profile of the C7 witness scenario: low concurrency risk. -/
def prevC7 : BehaviorProfile :=
  { is_stateful := false, write_heavy := false, has_background_jobs := false,
    has_file_uploads := false, estimated_concurrency_risk := ConcRisk.low,
    external_dependency_count := 0 }

/-- New profile of the C7 witness scenario: concurrency risk went high,
so the usage_growth category triggers. -/
def newC7 : BehaviorProfile :=
  { is_stateful := false, write_heavy := false, has_background_jobs := false,
    has_file_uploads := false, estimated_concurrency_risk := ConcRisk.high,
    external_dependency_count := 0 }

/-- Evaluation time of the C7 witness scenario. -/
def nowC7 : Int := 1000000000

/-- A usage_growth alert created three days before `nowC7`. -/
def rowRecentC7 : AlertRow :=
  { user_id := "u1", analysis_id := "a1",
    category := AlertCategory.usage_growth,
    created_at := nowC7 - 3 * 86400 }

/-- A usage_growth alert created eight days before `nowC7`. -/
def rowOldC7 : AlertRow :=
  { user_id := "u1", analysis_id := "a1",
    category := AlertCategory.usage_growth,
    created_at := nowC7 - 8 * 86400 }

theorem alert_category_cooldown_witness :
    (∀ al ∈ evaluateAlerts nowC7 [rowRecentC7] "a1" "u1" newC7 (some prevC7),
      al.category ≠ AlertCategory.usage_growth) ∧
    (∃ al ∈ evaluateAlerts nowC7 [rowOldC7] "a1" "u1" newC7 (some prevC7),
      al.category = AlertCategory.usage_growth) :=
  ⟨(alert_category_cooldown nowC7 [rowRecentC7] "a1" "u1" newC7 prevC7
      AlertCategory.usage_growth).1 (by decide),
   (alert_category_cooldown nowC7 [rowOldC7] "a1" "u1" newC7 prevC7
      AlertCategory.usage_growth).2 (by decide) (by decide)⟩
